import Mathlib

/-!
Shallow embedding of the automotive data-analysis service (`main.py`).

The service loads CSV datasets keyed by `(vehicle, channel group)`, resolves a
free-text analysis request to a signal name by substring matching, classifies
the analysis kind, and returns per-vehicle statistics for the resolved signal.

Python strings are modelled as Lean `String`s; the Python string operations
used by the code (`lower`, `in` (substring), `split`, `split(sep)`,
`replace`, `zfill`, `startswith`) are reimplemented below over `List Char`
so that every definition is executable by the kernel.  Missing CSV cells
(`NaN`) are modelled as `Option ℚ` with `none` for a missing value; numeric
values are rationals.  Python `dict`s are modelled as association lists in
insertion order with dict-update semantics (`dictInsert`).
-/

/-- Python `needle == hay[:len(needle)]`: `needle` is a prefix of `hay`. -/
def isSubListAt (needle hay : List Char) : Bool :=
  match needle, hay with
  | [], _ => true
  | _ :: _, [] => false
  | a :: as, b :: bs => a == b && isSubListAt as bs

/-- Python `needle in hay` for strings: `needle` occurs contiguously in `hay`. -/
def containsSub (hay needle : List Char) : Bool :=
  match hay with
  | [] => needle.isEmpty
  | _ :: t => isSubListAt needle hay || containsSub t needle

/-- Python `needle in hay` on `String`s. -/
def strContains (hay needle : String) : Bool :=
  containsSub hay.toList needle.toList

/-- Python `s.lower()` (ASCII, which covers all strings this program handles). -/
def pyLower (s : String) : String :=
  String.mk (s.toList.map Char.toLower)

/-- Python `s.startswith(pat)`. -/
def pyStartsWith (s pat : String) : Bool :=
  isSubListAt pat.toList s.toList

/-- Fuel-indexed worker for `pyReplace`; the fuel starts at the length of the
list, which each step consumes at least one character of. -/
def replaceAllAux (pat rep : List Char) : Nat → List Char → List Char
  | _, [] => []
  | 0, s => s
  | fuel + 1, c :: t =>
    if pat ≠ [] && isSubListAt pat (c :: t) then
      rep ++ replaceAllAux pat rep fuel (List.drop (pat.length - 1) t)
    else
      c :: replaceAllAux pat rep fuel t

/-- Python `s.replace(pat, rep)` for a non-empty pattern: replaces all
non-overlapping occurrences, scanning left to right. -/
def pyReplace (s pat rep : String) : String :=
  String.mk (replaceAllAux pat.toList rep.toList s.toList.length s.toList)

/-- Worker for `pySplitChar`, accumulating the current field reversed. -/
def splitOnCharAux (sep : Char) : List Char → List Char → List (List Char)
  | [], acc => [acc.reverse]
  | c :: t, acc =>
    if c == sep then acc.reverse :: splitOnCharAux sep t []
    else splitOnCharAux sep t (c :: acc)

/-- Python `s.split(sep)` for a one-character separator: keeps empty fields,
and `"".split(sep) == [""]`. -/
def pySplitChar (s : String) (sep : Char) : List String :=
  (splitOnCharAux sep s.toList []).map String.mk

/-- Worker for `pySplitWs`. -/
def splitWsAux : List Char → List Char → List (List Char)
  | [], acc => if acc.isEmpty then [] else [acc.reverse]
  | c :: t, acc =>
    if c.isWhitespace then
      if acc.isEmpty then splitWsAux t [] else acc.reverse :: splitWsAux t []
    else splitWsAux t (c :: acc)

/-- Python `s.split()` with no argument: splits on whitespace runs and never
produces empty tokens. -/
def pySplitWs (s : String) : List String :=
  (splitWsAux s.toList []).map String.mk

/-- Python `s.zfill(width)`: pads with leading zeros to `width`, keeping a
leading sign character in front of the padding. -/
def pyZfill (s : String) (width : Nat) : String :=
  if width ≤ s.length then s
  else
    match s.toList with
    | [] => String.mk (List.replicate width '0')
    | c :: rest =>
      if c == '-' || c == '+' then
        String.mk (c :: (List.replicate (width - s.length) '0' ++ rest))
      else
        String.mk (List.replicate (width - s.length) '0' ++ (c :: rest))

/-- Python dict update `m[k] = v`: replaces the value at an existing key in
place (dict keys are unique, so replacing the first occurrence is exact), or
appends a new binding at the end, preserving insertion order. -/
def dictInsert {α : Type} (m : List (String × α)) (k : String) (v : α) :
    List (String × α) :=
  match m with
  | [] => [(k, v)]
  | (k1, v1) :: t => if k1 == k then (k, v) :: t else (k1, v1) :: dictInsert t k v

/-- A loaded CSV table: named columns of cells, a cell being `none` when the
CSV value is missing (pandas `NaN`). -/
abbrev Dataset := List (String × List (Option ℚ))

/-- `analyzer.vehicle_data`: vehicle id ↦ (channel group ↦ dataset). -/
abbrev Store := List (String × List (String × Dataset))

/-- pandas `Series.dropna()`: the non-missing cells of a column, in order. -/
def dropna (col : List (Option ℚ)) : List ℚ :=
  col.filterMap id

/-- Column lookup `df[name]` guarded by `name in df.columns`. -/
def getColumn (df : Dataset) (name : String) : Option (List (Option ℚ)) :=
  df.lookup name

/-- Filename parsing in `load_real_csv_data`:
`parts = filename.replace('.csv', '').split('.')`, requiring at least two
parts, yielding `(vehicle_id, channel_group)`. -/
def parseFilename (filename : String) : Option (String × String) :=
  match pySplitChar (pyReplace filename ".csv" "") '.' with
  | v :: g :: _ => some (v, g)
  | _ => none

/-- Store update performed per file in `load_real_csv_data`: create the
vehicle's inner dict if absent, then assign `store[v][g] = df`. -/
def storeInsert (store : Store) (v g : String) (df : Dataset) : Store :=
  dictInsert store v (dictInsert ((store.lookup v).getD []) g df)

/-- `DataAnalyzer.load_real_csv_data`, abstracted over the directory scan:
the input is the list of `(filename, parsed table)` pairs in the order the
files are read; files whose names do not parse into two dot-separated tokens
are skipped. -/
def loadRealCsvData (files : List (String × Dataset)) : Store :=
  files.foldl
    (fun store fd =>
      match parseFilename fd.1 with
      | some (v, g) => storeInsert store v g fd.2
      | none => store)
    []

/-- One iteration of the channel-group loop in `find_signal_in_data`: a group
whose dataset has the column with at least one non-missing value overwrites
the vehicle's current entry (`results[vehicle_id] = ...`). -/
def signalGroupStep (name : String) (acc : Option (String × List ℚ))
    (gd : String × Dataset) : Option (String × List ℚ) :=
  match getColumn gd.2 name with
  | some col => if (dropna col).isEmpty then acc else some (gd.1, dropna col)
  | none => acc

/-- Inner loop of `find_signal_in_data` for one vehicle: scan its channel
groups in order; the last group with usable data wins.  Returns that group's
name and dropna'd values. -/
def findSignalGroups (channels : List (String × Dataset)) (name : String) :
    Option (String × List ℚ) :=
  channels.foldl (signalGroupStep name) none

/-- `DataAnalyzer.find_signal_in_data`: for each vehicle in store order, the
channel group and non-missing values found by `findSignalGroups`, keyed by
vehicle id.  (The Python code also stores a `timestamps` series per match;
no claim concerns it, and it does not affect any other output.) -/
def findSignalInData (store : Store) (name : String) :
    List (String × String × List ℚ) :=
  store.filterMap
    (fun vc => (findSignalGroups vc.2 name).map (fun gd => (vc.1, gd.1, gd.2)))

/-- Python `name in df.columns`. -/
def hasColumn (df : Dataset) (name : String) : Bool :=
  df.any (fun p => p.1 == name)

/-- A channel group qualifies for a signal when its dataset has the column
with at least one non-missing value. -/
def groupQualifies (name : String) (gd : String × Dataset) : Bool :=
  match getColumn gd.2 name with
  | some col => !(dropna col).isEmpty
  | none => false

/-- Spec-level restatement of signal lookup, for comparison with
`findSignalInData`: each vehicle owning a qualifying channel group
contributes the dropna'd column of its last qualifying group. -/
def findSignalSpec (store : Store) (name : String) :
    List (String × String × List ℚ) :=
  store.filterMap
    (fun vc =>
      match (vc.2.filter (groupQualifies name)).getLast? with
      | some gd => some (vc.1, gd.1, dropna ((getColumn gd.2 name).getD []))
      | none => none)

/-- `DataAnalyzer.identify_analysis_type`. -/
def identifyAnalysisType (description : String) : String :=
  let descLower := pyLower description
  if ["histogram", "distribution", "freq"].any (fun w => strContains descLower w) then
    "histogram"
  else if ["time", "series", "over time"].any (fun w => strContains descLower w) then
    "timeseries"
  else
    "histogram"

/-- The per-descriptor condition in `extract_signals_from_description`: the
lowercased name occurs in the lowercased description, or some
whitespace-split token of the lowercased human description does. -/
def descriptorMatches (descLower : String) (nd : String × String) : Bool :=
  strContains descLower (pyLower nd.1)
    || (pySplitWs (pyLower nd.2)).any (fun w => strContains descLower w)

/-- The matching loop of `extract_signals_from_description`: the descriptor
names, in mapping iteration order, that satisfy `descriptorMatches`. -/
def matchedSignals (descLower : String) (signalDescriptions : List (String × String)) :
    List String :=
  signalDescriptions.filterMap
    (fun nd => if descriptorMatches descLower nd then some nd.1 else none)

/-- `DataAnalyzer.extract_signals_from_description`: matched names, or the
first descriptor name when nothing matched.  On an empty mapping the Python
fallback `list(signal_descriptions.keys())[0]` raises `IndexError`, modelled
as `none`. -/
def extractSignalsFromDescription (description : String)
    (signalDescriptions : List (String × String)) : Option (List String) :=
  let signals := matchedSignals (pyLower description) signalDescriptions
  if signals.isEmpty then
    match signalDescriptions with
    | [] => none
    | nd :: _ => some [nd.1]
  else
    some signals

/-- Per-vehicle statistics block of `create_iav_style_histogram`.  pandas
`std()` uses `ddof=1`; its square is `sampleVariance` below (the square root
is irrational in general, so the variance is what the model stores; for fewer
than two samples pandas yields `NaN`, modelled here by the `ℚ` division by
zero convention). -/
structure SignalStats where
  mean : ℚ
  sampleVariance : ℚ
  min : ℚ
  max : ℚ
  count : Nat
  deriving Repr, DecidableEq

/-- pandas `Series.min()` on a non-empty series. -/
def pyMin (data : List ℚ) : ℚ :=
  match data with
  | [] => 0
  | h :: t => t.foldl min h

/-- pandas `Series.max()` on a non-empty series. -/
def pyMax (data : List ℚ) : ℚ :=
  match data with
  | [] => 0
  | h :: t => t.foldl max h

/-- The statistics computed per vehicle in `create_iav_style_histogram`. -/
def computeStats (data : List ℚ) : SignalStats :=
  let n : ℚ := data.length
  let mean := data.sum / n
  { mean := mean
    sampleVariance := (data.map (fun x => (x - mean) ^ 2)).sum / (n - 1)
    min := pyMin data
    max := pyMax data
    count := data.length }

/-- Vehicle label used as statistics key:
`vehicle_id.split('_')[0].replace('Vehicle', '')` zero-filled to two digits
and re-prefixed with `Vehicle`. -/
def vehicleLabel (vehicleId : String) : String :=
  let vehicleNum := pyReplace ((pySplitChar vehicleId '_').headD "") "Vehicle" ""
  "Vehicle" ++ pyZfill vehicleNum 2

/-- The `statistics` dict built by the loop in `create_iav_style_histogram`:
one `dict` assignment `statistics[label] = {...}` per matched vehicle. -/
def buildStatistics (signalData : List (String × String × List ℚ)) :
    List (String × SignalStats) :=
  signalData.foldl
    (fun acc vgd => dictInsert acc (vehicleLabel vgd.1) (computeStats vgd.2.2))
    []

/-- `DataAnalyzer.create_iav_style_histogram`, restricted to its observable
data (the rendered PNG is produced by matplotlib and is not modelled): raises
`ValueError` when no dataset has usable data for the signal, else returns the
statistics dict.  -/
def createIavStyleHistogram (store : Store) (signalName : String) :
    Except String (List (String × SignalStats)) :=
  let signalData := findSignalInData store signalName
  if signalData.isEmpty then
    Except.error ("No data found for signal: " ++ signalName)
  else
    Except.ok (buildStatistics signalData)

/-- The response body of `POST /analyze` (minus the base64 plot). -/
structure AnalysisResponse where
  analysisType : String
  description : String
  statistics : List (String × SignalStats)
  vehiclesAnalyzed : List String
  signalAnalyzed : String
  deriving Repr, DecidableEq

/-- The `/analyze` handler `analyze_data`: resolve signals, classify the
analysis type, build the histogram statistics; any exception is surfaced as a
500 response with detail `"Analysis failed: " + str(e)`.  The `IndexError`
raised inside resolution on an empty mapping carries the message
`"list index out of range"`. -/
def analyzeData (store : Store) (signalDescriptions : List (String × String))
    (analysisDescription : String) : Except String AnalysisResponse :=
  match extractSignalsFromDescription analysisDescription signalDescriptions with
  | none => Except.error "Analysis failed: list index out of range"
  | some signals =>
    match signals with
    | [] => Except.error "Analysis failed: list index out of range"
    | signalName :: _ =>
      let analysisType := identifyAnalysisType analysisDescription
      match createIavStyleHistogram store signalName with
      | Except.error e => Except.error ("Analysis failed: " ++ e)
      | Except.ok statistics =>
        Except.ok
          { analysisType := analysisType
            description := "Generated " ++ analysisType ++ " analysis for "
              ++ signalName ++ " using real vehicle data"
            statistics := statistics
            vehiclesAnalyzed := store.map Prod.fst
            signalAnalyzed := signalName }

/-- Dataset stored for one `(vehicle, channel group)` pair. -/
def lookupGroup (store : Store) (v g : String) : Option Dataset :=
  (store.lookup v).bind (fun chans => chans.lookup g)

/-- All column names occurring in loaded datasets, with repetition, in store
order (the Python code collects them into a `set`). -/
def allColumns (store : Store) : List String :=
  store.flatMap (fun vc => vc.2.flatMap (fun gd => gd.2.map Prod.fst))

/-- The `/available_signals` handler `get_available_signals`: the distinct
column names across all datasets, minus `timestamps` and names starting with
`Unnamed`, sorted. -/
def getAvailableSignals (store : Store) : List String :=
  ((allColumns store).dedup.filter
    (fun col => col != "timestamps" && !(pyStartsWith col "Unnamed"))).mergeSort
    (fun a b => a ≤ b)

/-! ## General lemmas about the string and dictionary helpers -/

theorem isSubListAt_refl (l : List Char) : isSubListAt l l = true := by
  induction l with
  | nil => rfl
  | cons a t ih => simp [isSubListAt, ih]

theorem containsSub_append_self (p n : List Char) : containsSub (p ++ n) n = true := by
  induction p with
  | nil =>
    cases n with
    | nil => rfl
    | cons a t => simp [containsSub, isSubListAt_refl]
  | cons c p ih => simp [containsSub, ih]

theorem strContains_append_self (p s : String) : strContains (p ++ s) s = true := by
  show containsSub (p ++ s).data s.data = true
  rw [String.data_append]
  exact containsSub_append_self _ _

theorem dictInsert_lookup {α : Type} (m : List (String × α)) (k : String) (v : α) :
    (dictInsert m k v).lookup k = some v := by
  induction m with
  | nil => simp [dictInsert, List.lookup]
  | cons p t ih =>
    obtain ⟨k1, v1⟩ := p
    by_cases h : k1 = k
    · subst h
      simp [dictInsert, List.lookup]
    · have hb : (k1 == k) = false := beq_eq_false_iff_ne.mpr h
      have hb2 : (k == k1) = false := beq_eq_false_iff_ne.mpr fun hh => h hh.symm
      simp [dictInsert, hb, List.lookup, hb2, ih]

theorem matchedSignals_eq_filter (dl : String) (sds : List (String × String)) :
    matchedSignals dl sds = (sds.filter (descriptorMatches dl)).map Prod.fst := by
  induction sds with
  | nil => rfl
  | cons nd t ih =>
    cases h : descriptorMatches dl nd with
    | true => simp [matchedSignals, List.filterMap_cons, List.filter_cons, h] at ih ⊢; exact ih
    | false => simp [matchedSignals, List.filterMap_cons, List.filter_cons, h] at ih ⊢; exact ih

theorem splitWsAux_mem_ne_nil (t : List Char) :
    ∀ (acc x : List Char), x ∈ splitWsAux t acc → x ≠ [] := by
  induction t with
  | nil =>
    intro acc x hx
    by_cases h : acc.isEmpty
    · simp [splitWsAux, h] at hx
    · simp only [splitWsAux, if_neg h, List.mem_singleton] at hx
      subst hx
      simp only [ne_eq, List.reverse_eq_nil_iff]
      exact fun hn => h (by simp [hn])
  | cons c t ih =>
    intro acc x hx
    by_cases hw : c.isWhitespace
    · by_cases ha : acc.isEmpty
      · simp only [splitWsAux, if_pos hw, if_pos ha] at hx
        exact ih [] x hx
      · simp only [splitWsAux, if_pos hw, if_neg ha, List.mem_cons] at hx
        rcases hx with h1 | h2
        · subst h1
          simp only [ne_eq, List.reverse_eq_nil_iff]
          exact fun hn => ha (by simp [hn])
        · exact ih [] x h2
    · simp only [splitWsAux, if_neg hw] at hx
      exact ih (c :: acc) x hx

theorem strContains_empty_iff (s : String) : strContains "" s = s.toList.isEmpty := rfl

theorem pySplitWs_mem_ne_empty (s w : String) (hw : w ∈ pySplitWs s) : w.toList ≠ [] := by
  simp only [pySplitWs, List.mem_map] at hw
  obtain ⟨piece, hpiece, hmk⟩ := hw
  have hne := splitWsAux_mem_ne_nil s.toList [] piece hpiece
  subst hmk
  exact hne

theorem descriptorMatches_empty_desc (nd : String × String) (h : nd.1 ≠ "") :
    descriptorMatches (pyLower "") nd = false := by
  have hplow : pyLower "" = "" := rfl
  rw [hplow]
  unfold descriptorMatches
  have h1 : strContains "" (pyLower nd.1) = false := by
    rw [strContains_empty_iff]
    have : (pyLower nd.1).toList = nd.1.toList.map Char.toLower := rfl
    rw [this]
    cases hl : nd.1.toList.map Char.toLower with
    | nil => exact absurd (String.ext (List.map_eq_nil_iff.mp hl)) h
    | cons a t => rfl
  have h2 : (pySplitWs (pyLower nd.2)).any (fun w => strContains "" w) = false := by
    rw [List.any_eq_false]
    intro w hw
    rw [strContains_empty_iff]
    cases hl : w.toList with
    | nil => exact absurd hl (pySplitWs_mem_ne_empty _ w hw)
    | cons a t => simp
  rw [h1, h2]
  rfl

theorem matchedSignals_empty_desc (sds : List (String × String))
    (h : ∀ p ∈ sds, p.1 ≠ "") :
    matchedSignals (pyLower "") sds = [] := by
  unfold matchedSignals
  rw [List.filterMap_eq_nil_iff]
  intro nd hnd
  rw [descriptorMatches_empty_desc nd (h nd hnd)]
  rfl

theorem groupQualifies_true_iff (name : String) (gd : String × Dataset) :
    groupQualifies name gd = true ↔
      ∃ col, getColumn gd.2 name = some col ∧ (dropna col).isEmpty = false := by
  unfold groupQualifies
  cases hc : getColumn gd.2 name with
  | none => simp
  | some col => simp [Bool.not_eq_true']

theorem findSignalGroups_foldl (name : String) (chans : List (String × Dataset)) :
    ∀ acc : Option (String × List ℚ),
      chans.foldl (signalGroupStep name) acc =
        match (chans.filter (groupQualifies name)).getLast? with
        | some gd => some (gd.1, dropna ((getColumn gd.2 name).getD []))
        | none => acc := by
  induction chans with
  | nil => intro acc; rfl
  | cons gd t ih =>
    intro acc
    rw [List.foldl_cons]
    cases hq : groupQualifies name gd with
    | false =>
      have hstep : signalGroupStep name acc gd = acc := by
        unfold signalGroupStep
        unfold groupQualifies at hq
        cases hc : getColumn gd.2 name with
        | none => rfl
        | some col =>
          rw [hc] at hq
          have he : (dropna col).isEmpty = true := by
            simpa [Bool.not_eq_true'] using hq
          simp [he]
      rw [hstep, ih acc, List.filter_cons, hq]
      simp
    | true =>
      obtain ⟨col, hc, he⟩ := (groupQualifies_true_iff name gd).mp hq
      have hstep : signalGroupStep name acc gd = some (gd.1, dropna col) := by
        simp [signalGroupStep, hc, he]
      rw [hstep, ih (some (gd.1, dropna col)), List.filter_cons, hq]
      simp only [if_true]
      cases hft : List.filter (groupQualifies name) t with
      | nil =>
        simp only [List.getLast?_nil]
        show some (gd.1, dropna col) = some (gd.1, dropna ((getColumn gd.2 name).getD []))
        rw [hc]
        rfl
      | cons y ys =>
        rw [List.getLast?_cons_cons]
        cases hgl : (y :: ys).getLast? with
        | none => exact absurd (List.getLast?_eq_none_iff.mp hgl) (by simp)
        | some z => rfl

theorem findSignalGroups_eq_getLast (chans : List (String × Dataset)) (name : String) :
    findSignalGroups chans name =
      match (chans.filter (groupQualifies name)).getLast? with
      | some gd => some (gd.1, dropna ((getColumn gd.2 name).getD []))
      | none => none := by
  unfold findSignalGroups
  exact findSignalGroups_foldl name chans none

theorem getColumn_eq_none (df : Dataset) (name : String)
    (h : hasColumn df name = false) : getColumn df name = none := by
  induction df with
  | nil => rfl
  | cons p t ih =>
    simp only [hasColumn, List.any_cons, Bool.or_eq_false_iff] at h
    obtain ⟨h1, h2⟩ := h
    have hb : (name == p.1) = false :=
      beq_eq_false_iff_ne.mpr fun hh => (beq_eq_false_iff_ne.mp h1) hh.symm
    obtain ⟨k, v⟩ := p
    simp only [getColumn, List.lookup_cons] at ih ⊢
    rw [hb]
    exact ih h2

theorem findSignalGroups_eq_none (chans : List (String × Dataset)) (name : String)
    (h : ∀ gd ∈ chans, hasColumn gd.2 name = false) :
    findSignalGroups chans name = none := by
  rw [findSignalGroups_eq_getLast]
  have hf : List.filter (groupQualifies name) chans = [] := by
    rw [List.filter_eq_nil_iff]
    intro gd hgd
    intro hq
    obtain ⟨col, hc, _⟩ := (groupQualifies_true_iff name gd).mp hq
    rw [getColumn_eq_none gd.2 name (h gd hgd)] at hc
    exact Option.noConfusion hc
  rw [hf]
  rfl

theorem findSignalInData_eq_nil (store : Store) (name : String)
    (h : ∀ vc ∈ store, ∀ gd ∈ vc.2, hasColumn gd.2 name = false) :
    findSignalInData store name = [] := by
  unfold findSignalInData
  rw [List.filterMap_eq_nil_iff]
  intro vc hvc
  rw [findSignalGroups_eq_none vc.2 name (h vc hvc)]
  rfl

/-! ## Claim theorems -/

/-- Claim C1, counterexample: the description "histogram over time" contains
the token "time", yet the classifier returns "histogram", not "timeseries" as
the claim predicts, because the histogram-token check runs first. -/
theorem claim1_counterexample :
    strContains (pyLower "histogram over time") "time" = true ∧
    identifyAnalysisType "histogram over time" ≠ "timeseries" := by
  constructor
  · decide
  · decide

/-- Claim C1, amended: the classifier returns "timeseries" exactly when the
lowercased description contains none of "histogram", "distribution", "freq"
and contains one of "time", "series", "over time"; in every other case it
returns "histogram". -/
theorem claim1_classify_characterization (d : String) :
    (identifyAnalysisType d = "timeseries" ↔
      ((strContains (pyLower d) "histogram" = false ∧
        strContains (pyLower d) "distribution" = false ∧
        strContains (pyLower d) "freq" = false) ∧
       (strContains (pyLower d) "time" = true ∨
        strContains (pyLower d) "series" = true ∨
        strContains (pyLower d) "over time" = true))) ∧
    (identifyAnalysisType d = "histogram" ∨ identifyAnalysisType d = "timeseries") := by
  unfold identifyAnalysisType
  cases h1 : strContains (pyLower d) "histogram" <;>
    cases h2 : strContains (pyLower d) "distribution" <;>
      cases h3 : strContains (pyLower d) "freq" <;>
        cases h4 : strContains (pyLower d) "time" <;>
          cases h5 : strContains (pyLower d) "series" <;>
            cases h6 : strContains (pyLower d) "over time" <;>
              simp [h1, h2, h3, h4, h5, h6]

/-- Claim C2, counterexample: resolving "foo" against {"A": "b"} matches no
descriptor, yet resolution returns ["A"] (the fallback), not the empty list
of matching descriptor names the claim demands for every input. -/
theorem claim2_counterexample :
    ([("A", "b")].filter (descriptorMatches (pyLower "foo"))).map Prod.fst = [] ∧
    extractSignalsFromDescription "foo" [("A", "b")] = some ["A"] := by
  constructor
  · decide
  · rfl

/-- Claim C2, amended: whenever at least one descriptor matches, resolution
returns exactly the matching descriptor names, in mapping iteration order
(name-substring match, or some whitespace-split token of the descriptor's
lowercased text being a substring of the lowercased description). -/
theorem claim2_extract_matching (d : String) (sds : List (String × String))
    (h : ∃ nd ∈ sds, descriptorMatches (pyLower d) nd = true) :
    extractSignalsFromDescription d sds =
      some ((sds.filter (descriptorMatches (pyLower d))).map Prod.fst) := by
  have hne : ((sds.filter (descriptorMatches (pyLower d))).map Prod.fst).isEmpty = false := by
    obtain ⟨nd, hmem, hm⟩ := h
    have hin : nd ∈ sds.filter (descriptorMatches (pyLower d)) :=
      List.mem_filter.mpr ⟨hmem, hm⟩
    cases hl : sds.filter (descriptorMatches (pyLower d)) with
    | nil => rw [hl] at hin; exact absurd hin (List.not_mem_nil nd)
    | cons y ys => rfl
  simp only [extractSignalsFromDescription, matchedSignals_eq_filter, hne,
    Bool.false_eq_true, if_false]

/-- Witness for C2 at the spec's worked example. -/
theorem claim2_witness :
    extractSignalsFromDescription "histogram of battery voltage"
      [("Eng_uBatt", "Battery voltage in mV")] = some ["Eng_uBatt"] := by
  have h := claim2_extract_matching "histogram of battery voltage"
    [("Eng_uBatt", "Battery voltage in mV")] (by decide)
  exact h.trans (by decide)

/-- Claim C3, counterexample: a request with an empty descriptor mapping is
not rejected before resolution; the resolution routine runs on the empty
mapping and fails (IndexError, modelled as `none`), and the request fails
with the generic 500 wrapper, not an upstream caller-error rejection. -/
theorem claim3_counterexample :
    extractSignalsFromDescription "histogram" [] = none ∧
    analyzeData [] [] "histogram" =
      Except.error "Analysis failed: list index out of range" :=
  ⟨rfl, rfl⟩

/-- Claim C3, amended: `analyze_data` performs no empty-mapping check; for
every store and description, resolution is invoked on the empty mapping and
its fallback indexing raises IndexError, surfaced to the caller as the
500-equivalent "Analysis failed: list index out of range". -/
theorem claim3_empty_mapping (store : Store) (d : String) :
    extractSignalsFromDescription d [] = none ∧
    analyzeData store [] d =
      Except.error "Analysis failed: list index out of range" :=
  ⟨rfl, rfl⟩

/-- Claim C4 (confirmed): when the resolved signal's column appears in no
loaded dataset, the analysis fails with an error whose message contains the
signal name, wrapped in the 500-equivalent "Analysis failed: " prefix, and
never returns a success response. -/
theorem claim4_no_data_error (store : Store) (sds : List (String × String))
    (d name : String) (rest : List String)
    (hres : extractSignalsFromDescription d sds = some (name :: rest))
    (hnone : ∀ vc ∈ store, ∀ gd ∈ vc.2, hasColumn gd.2 name = false) :
    analyzeData store sds d =
      Except.error ("Analysis failed: No data found for signal: " ++ name) ∧
    strContains ("Analysis failed: No data found for signal: " ++ name) name = true ∧
    ∀ resp : AnalysisResponse, analyzeData store sds d ≠ Except.ok resp := by
  have hfind : findSignalInData store name = [] :=
    findSignalInData_eq_nil store name hnone
  have hch : createIavStyleHistogram store name =
      Except.error ("No data found for signal: " ++ name) := by
    simp only [createIavStyleHistogram, hfind]
    rfl
  have heq : analyzeData store sds d =
      Except.error ("Analysis failed: " ++ ("No data found for signal: " ++ name)) := by
    simp only [analyzeData, hres, hch]
  have hlit : "Analysis failed: " ++ ("No data found for signal: " ++ name) =
      "Analysis failed: No data found for signal: " ++ name := by
    rw [← String.append_assoc]
    rfl
  refine ⟨heq.trans (congrArg Except.error hlit), strContains_append_self _ name, ?_⟩
  intro resp hok
  rw [heq] at hok
  exact Except.noConfusion hok

/-- Witness for C4: an empty store has no data for the resolved signal "S". -/
theorem claim4_witness :
    analyzeData [] [("S", "x")] "foo" =
      Except.error ("Analysis failed: No data found for signal: " ++ "S") := by
  have h := claim4_no_data_error [] [("S", "x")] "foo" "S" [] rfl (by simp)
  exact h.1

/-- Claim C5, counterexample: a dataset contains the column "s" (with every
value missing), yet `find_signal_in_data` returns no entry for its vehicle:
the code skips columns whose non-missing part is empty, so not every dataset
containing the column contributes an entry. -/
theorem claim5_counterexample :
    hasColumn [("s", [(none : Option ℚ)])] "s" = true ∧
    findSignalInData [("V", [("G", [("s", [(none : Option ℚ)])])])] "s" = [] :=
  ⟨rfl, rfl⟩

/-- Claim C5, amended: signal lookup returns, keyed by vehicle in store
order, the non-missing values of the requested column for every vehicle
owning a dataset that contains the column with at least one non-missing
value; among such channel groups of one vehicle, the last-loaded wins.
`findSignalSpec` spells out that contract; the code's loop realises it. -/
theorem claim5_find_signal (store : Store) (name : String) :
    findSignalInData store name = findSignalSpec store name := by
  unfold findSignalInData findSignalSpec
  apply List.filterMap_congr
  intro vc _
  rw [findSignalGroups_eq_getLast]
  cases hgl : (vc.2.filter (groupQualifies name)).getLast? with
  | none => rfl
  | some gd => rfl

/-- Claim C6, counterexample: the spec's example "foo bar" against
{"A": "desc1", "B": "desc2"} does not fall back to ["A"]: the lowercased
names "a" and "b" occur as substrings of "foo bar", so both descriptors
match and resolution returns ["A", "B"]. -/
theorem claim6_counterexample :
    extractSignalsFromDescription "foo bar" [("A", "desc1"), ("B", "desc2")] =
      some ["A", "B"] ∧
    extractSignalsFromDescription "foo bar" [("A", "desc1"), ("B", "desc2")] ≠
      some ["A"] := by
  constructor
  · rfl
  · decide

/-- Claim C6, amended: when no descriptor matches, resolution returns the
single-element list of the first descriptor name; an empty description
matches no descriptor provided no descriptor name is the empty string (an
empty name is a substring of every description, and a name such as "a" can
match inside ordinary words, as in "foo bar"). -/
theorem claim6_fallback (sds : List (String × String)) (nd : String × String)
    (rest : List (String × String)) (hsds : sds = nd :: rest) :
    (∀ d : String, matchedSignals (pyLower d) sds = [] →
        extractSignalsFromDescription d sds = some [nd.1]) ∧
    ((∀ p ∈ sds, p.1 ≠ "") →
        extractSignalsFromDescription "" sds = some [nd.1]) := by
  constructor
  · intro d hm
    subst hsds
    simp only [extractSignalsFromDescription, hm]
    rfl
  · intro hne
    have hm := matchedSignals_empty_desc sds hne
    subst hsds
    simp only [extractSignalsFromDescription, hm]
    rfl

/-- Witness for C6: no descriptor matches "xyz qqq" (nor the empty
description), so resolution falls back to the first name "A". -/
theorem claim6_witness :
    extractSignalsFromDescription "xyz qqq" [("A", "desc1"), ("B", "desc2")] =
      some ["A"] ∧
    extractSignalsFromDescription "" [("A", "desc1"), ("B", "desc2")] =
      some ["A"] := by
  have h := claim6_fallback [("A", "desc1"), ("B", "desc2")] ("A", "desc1")
    [("B", "desc2")] rfl
  exact ⟨h.1 "xyz qqq" (by decide), h.2 (by decide)⟩

theorem lookupGroup_storeInsert_twice (S : Store) (v g : String) (df1 df2 : Dataset) :
    lookupGroup (storeInsert (storeInsert S v g df1) v g df2) v g = some df2 := by
  unfold lookupGroup storeInsert
  rw [dictInsert_lookup S v (dictInsert ((S.lookup v).getD []) g df1)]
  simp only [Option.getD_some]
  rw [dictInsert_lookup]
  simp only [Option.some_bind]
  exact dictInsert_lookup _ g df2

/-- Claim C7, counterexample: the files "A.B.csv" and "A.B.x.csv" both parse
to the key (A, B); after loading both, the store holds the second file's
dataset, so the first-loaded dataset is not kept. -/
theorem claim7_counterexample :
    parseFilename "A.B.csv" = some ("A", "B") ∧
    parseFilename "A.B.x.csv" = some ("A", "B") ∧
    loadRealCsvData [("A.B.csv", [("c", [some 1])]), ("A.B.x.csv", [("c", [some 2])])] =
      [("A", [("B", [("c", [some 2])])])] ∧
    lookupGroup (loadRealCsvData
        [("A.B.csv", [("c", [some 1])]), ("A.B.x.csv", [("c", [some 2])])]) "A" "B" ≠
      some [("c", [some 1])] := by
  refine ⟨rfl, rfl, rfl, ?_⟩
  intro h
  have h2 : some ([("c", [some 2])] : Dataset) = some [("c", [some 1])] := h
  simp at h2

/-- Claim C7, amended: for duplicate (vehicle, channel-group) keys the Data
Store keeps the LAST-loaded dataset: after loading two files parsing to the
same key, the store holds the second file's dataset. -/
theorem claim7_duplicate_last_wins (files : List (String × Dataset))
    (f1 f2 v g : String) (df1 df2 : Dataset)
    (h1 : parseFilename f1 = some (v, g)) (h2 : parseFilename f2 = some (v, g)) :
    lookupGroup (loadRealCsvData (files ++ [(f1, df1), (f2, df2)])) v g = some df2 := by
  unfold loadRealCsvData
  rw [List.foldl_append]
  simp only [List.foldl_cons, List.foldl_nil, h1, h2]
  exact lookupGroup_storeInsert_twice _ v g df1 df2

/-- Witness for C7 at the two concrete duplicate-key files. -/
theorem claim7_witness :
    lookupGroup (loadRealCsvData
        [("A.B.csv", [("c", [some (1 : ℚ)])]), ("A.B.x.csv", [("c", [some 2])])])
      "A" "B" = some [("c", [some 2])] := by
  have h := claim7_duplicate_last_wins [] "A.B.csv" "A.B.x.csv" "A" "B"
    [("c", [some 1])] [("c", [some 2])] rfl rfl
  exact h

/-- Claim C8 (confirmed): statistics are keyed by the label built from the
identifier's first underscore token with "Vehicle" stripped and the rest
zero-padded to two digits; two distinct vehicles sharing that first token get
the same label, the later-iterated vehicle overwrites the earlier one's
entry, and the statistics dict ends up with a single entry for the two
matching vehicles. -/
theorem claim8_label_collision (v1 v2 g1 g2 : String) (d1 d2 : List ℚ)
    (hne : v1 ≠ v2)
    (hshare : (pySplitChar v1 '_').headD "" = (pySplitChar v2 '_').headD "") :
    vehicleLabel v1 = vehicleLabel v2 ∧
    buildStatistics [(v1, g1, d1), (v2, g2, d2)] =
      [(vehicleLabel v2, computeStats d2)] ∧
    (buildStatistics [(v1, g1, d1), (v2, g2, d2)]).length = 1 := by
  have hlab : vehicleLabel v1 = vehicleLabel v2 := by
    unfold vehicleLabel
    rw [hshare]
  have hbuild : buildStatistics [(v1, g1, d1), (v2, g2, d2)] =
      [(vehicleLabel v2, computeStats d2)] := by
    unfold buildStatistics
    simp only [List.foldl_cons, List.foldl_nil]
    rw [hlab]
    simp [dictInsert]
  exact ⟨hlab, hbuild, by rw [hbuild]; rfl⟩

/-- Witness for C8 at the claim's example identifiers. -/
theorem claim8_witness :
    vehicleLabel "Vehicle1_meas4" = vehicleLabel "Vehicle1_meas5" ∧
    buildStatistics [("Vehicle1_meas4", "G1", [1]), ("Vehicle1_meas5", "G2", [2])] =
      [(vehicleLabel "Vehicle1_meas5", computeStats [2])] := by
  have h := claim8_label_collision "Vehicle1_meas4" "Vehicle1_meas5" "G1" "G2"
    [1] [2] (by decide) (by decide)
  exact ⟨h.1, h.2.1⟩

/-- Claim C9 (confirmed): a vehicle whose matched series is [1, 2, 3, 4, 5]
gets statistics with mean 3, minimum 1, maximum 5 and count 5. -/
theorem claim9_synthetic_series (vid g : String) :
    ∃ s : SignalStats,
      buildStatistics [(vid, g, [1, 2, 3, 4, 5])] = [(vehicleLabel vid, s)] ∧
      s.mean = 3 ∧ s.min = 1 ∧ s.max = 5 ∧ s.count = 5 := by
  refine ⟨computeStats [1, 2, 3, 4, 5], rfl, ?_, ?_, ?_, rfl⟩
  · show ([(1 : ℚ), 2, 3, 4, 5].sum) / (([(1 : ℚ), 2, 3, 4, 5].length : Nat) : ℚ) = 3
    norm_num [List.sum_cons, List.sum_nil]
  · show pyMin [1, 2, 3, 4, 5] = 1
    norm_num [pyMin, List.foldl_cons, List.foldl_nil, min_def]
  · show pyMax [1, 2, 3, 4, 5] = 5
    norm_num [pyMax, List.foldl_cons, List.foldl_nil, max_def]

/-- Claim C10 (confirmed): the signal listing contains exactly the distinct
column names across all loaded datasets, excluding "timestamps" and names
starting with "Unnamed". -/
theorem claim10_available_signals (store : Store) :
    (getAvailableSignals store).Nodup ∧
    ∀ col : String,
      col ∈ getAvailableSignals store ↔
        (col ∈ allColumns store ∧ col ≠ "timestamps" ∧
          pyStartsWith col "Unnamed" = false) := by
  constructor
  · have h1 : ((allColumns store).dedup.filter
        (fun col => col != "timestamps" && !(pyStartsWith col "Unnamed"))).Nodup :=
      List.Nodup.filter _ (List.nodup_dedup _)
    exact ((List.mergeSort_perm _ _).symm).nodup h1
  · intro col
    unfold getAvailableSignals
    rw [List.mem_mergeSort, List.mem_filter, List.mem_dedup]
    constructor
    · rintro ⟨hmem, hcond⟩
      rw [Bool.and_eq_true, bne_iff_ne, Bool.not_eq_true'] at hcond
      exact ⟨hmem, hcond.1, hcond.2⟩
    · rintro ⟨hmem, hts, hun⟩
      refine ⟨hmem, ?_⟩
      rw [Bool.and_eq_true, bne_iff_ne, Bool.not_eq_true']
      exact ⟨hts, hun⟩
